import Mathlib

/-!
Shallow embedding of the Freelance CRM core (src/app/main.py, src/app/models.py).

Modelling conventions:
* `datetime` values are abstract `Nat` timestamps; every operation takes the
  current time `now` as a parameter (all `now_utc()` calls inside one request
  return that value).
* SQLite tables are Lean lists; autoincrement primary keys are per-table
  `next…Id` counters on the `DB` state.
* Python `float` columns (`value_estimate`, `budget`) carry `Rat` payloads;
  no claim performs float arithmetic, the values are only stored and compared
  for frame conditions.  `parse_optional_float` / `parse_optional_datetime`
  results are passed in already parsed for the same reason.
* Raising `HTTPException` is modelled by `Except Err`; an error response
  commits nothing (the handlers below validate before mutating).
* Python string truthiness (`if s:`) is `s ≠ ""`.
-/

deriving instance DecidableEq for Except

namespace CRM

/-! ### Python string primitives -/

/-- `str.strip()` on the character list. -/
def pyStripList (l : List Char) : List Char :=
  ((l.dropWhile Char.isWhitespace).reverse.dropWhile Char.isWhitespace).reverse

/-- `str.strip()`. -/
def pyStrip (s : String) : String := ⟨pyStripList s.data⟩

/-- `str.lower()` (ASCII, which is all the repository exercises). -/
def pyLower (s : String) : String := ⟨s.data.map Char.toLower⟩

/-- `re.split(pat+, s)` run-splitting: pieces between maximal runs of
separator characters, keeping empty edge pieces exactly as `re.split` does.
The `Bool` flag records being inside a separator run. -/
def splitRunsGo (p : Char → Bool) : List Char → Bool → List Char → List (List Char)
  | [], false, acc => [acc.reverse]
  | [], true, _ => [[]]
  | c :: cs, false, acc =>
    if p c then acc.reverse :: splitRunsGo p cs true []
    else splitRunsGo p cs false (c :: acc)
  | c :: cs, true, _ =>
    if p c then splitRunsGo p cs true []
    else splitRunsGo p cs false [c]

def splitRuns (p : Char → Bool) (cs : List Char) : List (List Char) :=
  splitRunsGo p cs false []

/-- Python `str.split()` with no argument: whitespace runs, empties dropped. -/
def pySplitWs (s : String) : List String :=
  ((splitRuns Char.isWhitespace s.data).filter (fun t => !t.isEmpty)).map (⟨·⟩)

/-- Python `str.title()` for ASCII text: an alphabetic character is uppercased
when the previous character was not alphabetic, lowercased otherwise. -/
def pyTitleList : Bool → List Char → List Char
  | _, [] => []
  | prevCased, c :: cs =>
    if c.isAlpha then (if prevCased then c.toLower else c.toUpper) :: pyTitleList true cs
    else c :: pyTitleList false cs

def pyTitle (s : String) : String := ⟨pyTitleList false s.data⟩

/-- `s.replace("+", " ")`. -/
def plusToSpace (s : String) : String :=
  ⟨s.data.map (fun c => if c = '+' then ' ' else c)⟩

/-- Split a list at the first occurrence of `t` (Python `split(t, 1)`). -/
def splitAtFirst (t : Char) : List Char → Option (List Char × List Char)
  | [] => none
  | c :: cs =>
    if c = t then some ([], cs)
    else (splitAtFirst t cs).map (fun pr => (c :: pr.1, pr.2))

/-- `int(s)` on a digit string (the repository only parses nonnegative ids). -/
def parseNatDigits (l : List Char) : Option Nat :=
  if !l.isEmpty && l.all Char.isDigit then
    some (l.foldl (fun n c => n * 10 + (c.toNat - '0'.toNat)) 0)
  else none

/-! ### Parsing helpers from main.py -/

/-- `parse_optional_int` (main.py:81): `None`/blank → `None`, else `int(value)`
(unparseable → `None`). -/
def parse_optional_int (value : Option String) : Option Nat :=
  match value with
  | none => none
  | some s => if pyStrip s = "" then none else parseNatDigits (pyStrip s).data

/-- Python `s.strip() or None`, the pervasive blank-to-null normalisation. -/
def strippedOrNone (s : String) : Option String :=
  let t := pyStrip s
  if t = "" then none else some t

/-- Nonblank-or-none without stripping (import path: `phone or None`). -/
def blankToNone (s : String) : Option String :=
  if s = "" then none else some s

/-! ### Email extraction (main.py:95) -/

/-- Separator class of `re.split(r"[;\s,]+", raw)`. -/
def emailSep (c : Char) : Bool := c == ';' || c == ',' || c.isWhitespace

def noAtNoWs (l : List Char) : Bool :=
  l.all (fun c => c != '@' && !c.isWhitespace)

/-- `re.match(r"^[^@\s]+@[^@\s]+\.[^@\s]+$", s)`: split at the first `@`;
the local part is nonempty without `@`/whitespace, the remainder has no
`@`/whitespace and contains a `.` that is neither its first nor its last
character. -/
def emailRegexTest (l : List Char) : Bool :=
  match splitAtFirst '@' l with
  | none => false
  | some (a, rest) =>
    !a.isEmpty && noAtNoWs a && noAtNoWs rest && ((rest.drop 1).dropLast.contains '.')

def startsWithList (pre l : List Char) : Bool := l.take pre.length == pre

/-- `extract_emails` (main.py:95-108). -/
def extract_emails (raw : String) : List String :=
  if raw = "" then []
  else
    (splitRuns emailSep raw.data).filterMap fun candidate =>
      let cleaned := pyStripList candidate
      if cleaned.isEmpty then none
      else
        let cleaned :=
          if startsWithList "mailto:".data (cleaned.map Char.toLower) then cleaned.drop 7
          else cleaned
        if emailRegexTest cleaned then some (⟨cleaned⟩ : String) else none

/-- `name_from_email` (main.py:110-117). -/
def name_from_email (email : String) : String × String :=
  let localPart := match splitAtFirst '@' email.data with
    | some (a, _) => a
    | none => email.data
  let parts := (splitRuns (fun c => c == '.' || c == '_' || c == '-') localPart).filter
    (fun t => !t.isEmpty)
  match parts with
  | [] => ("", "")
  | p :: rest =>
    (pyTitle (plusToSpace ⟨p⟩),
     String.intercalate " " (rest.map (fun q => pyTitle (plusToSpace ⟨q⟩))))

/-! ### Data model (src/app/models.py) -/

structure Company where
  id : Nat
  name : String
  website : Option String
  notes : Option String
  created_at : Nat
  updated_at : Nat
deriving DecidableEq, Repr

structure Contact where
  id : Nat
  first_name : String
  last_name : String
  email : Option String
  phone : Option String
  role : Option String
  company_id : Option Nat
  notes : Option String
  created_at : Nat
  updated_at : Nat
deriving DecidableEq, Repr

structure Lead where
  id : Nat
  title : String
  status : String
  source : Option String
  value_estimate : Option Rat
  company_id : Option Nat
  contact_id : Option Nat
  next_step : Option String
  due_date : Option Nat
  notes : Option String
  created_at : Nat
  updated_at : Nat
deriving DecidableEq, Repr

structure Idea where
  id : Nat
  title : String
  status : String
  tags : Option String
  notes : Option String
  created_at : Nat
  updated_at : Nat
deriving DecidableEq, Repr

structure Project where
  id : Nat
  name : String
  status : String
  company_id : Option Nat
  contact_id : Option Nat
  start_date : Option Nat
  end_date : Option Nat
  budget : Option Rat
  notes : Option String
  created_at : Nat
  updated_at : Nat
deriving DecidableEq, Repr

structure Task where
  id : Nat
  project_id : Nat
  title : String
  status : String
  due_date : Option Nat
  notes : Option String
  created_at : Nat
  updated_at : Nat
deriving DecidableEq, Repr

structure Event where
  id : Nat
  title : String
  start : Nat
  end_ : Option Nat
  all_day : Bool
  project_id : Option Nat
  contact_id : Option Nat
  location : Option String
  notes : Option String
  created_at : Nat
  updated_at : Nat
deriving DecidableEq, Repr

structure Asset where
  id : Nat
  filename : String
  stored_path : String
  mime_type : Option String
  size_bytes : Option Nat
  tags : Option String
  project_id : Option Nat
  contact_id : Option Nat
  notes : Option String
  created_at : Nat
deriving DecidableEq, Repr

/-- A Contact field value as it appears in the before/after snapshot dicts of
`contacts_update` (string-valued or int-valued, both nullable). -/
inductive FieldVal where
  | s : Option String → FieldVal
  | n : Option Nat → FieldVal
deriving DecidableEq, Repr

/-- The JSON payloads actually stored in `Activity.changes`, one constructor
per literal dict shape used in main.py. -/
inductive ChangeRec where
  | fieldDiffs : List (String × FieldVal × FieldVal) → ChangeRec
  | statusChange : String → String → ChangeRec
  | projectRef : Nat → ChangeRec
  | uploadMeta : Option Nat → Option String → ChangeRec
deriving DecidableEq, Repr

structure Activity where
  id : Nat
  ts : Nat
  action : String
  entity_type : String
  entity_id : Option Nat
  summary : String
  changes : Option ChangeRec
deriving DecidableEq, Repr

/-- The persisted state: SQLite tables plus the uploads directory
(`files` maps stored names to byte contents). -/
structure DB where
  companies : List Company
  contacts : List Contact
  leads : List Lead
  ideas : List Idea
  projects : List Project
  tasks : List Task
  events : List Event
  assets : List Asset
  activities : List Activity
  files : List (String × List Nat)
  nextCompanyId : Nat
  nextContactId : Nat
  nextLeadId : Nat
  nextIdeaId : Nat
  nextProjectId : Nat
  nextTaskId : Nat
  nextEventId : Nat
  nextAssetId : Nat
  nextActivityId : Nat
deriving DecidableEq, Repr

def emptyDB : DB :=
  { companies := [], contacts := [], leads := [], ideas := [], projects := [],
    tasks := [], events := [], assets := [], activities := [], files := [],
    nextCompanyId := 1, nextContactId := 1, nextLeadId := 1, nextIdeaId := 1,
    nextProjectId := 1, nextTaskId := 1, nextEventId := 1, nextAssetId := 1,
    nextActivityId := 1 }

/-- `HTTPException` outcomes (the status codes raised in main.py). -/
inductive Err where
  | notFound
  | badRequest
  | payloadTooLarge
  | unsupportedType
deriving DecidableEq, Repr

/-- `add_activity` (main.py:91-93). -/
def add_activity (db : DB) (now : Nat) (action entity_type : String)
    (entity_id : Option Nat) (summary : String) (changes : Option ChangeRec) : DB :=
  { db with
    activities := db.activities ++
      [{ id := db.nextActivityId, ts := now, action := action,
         entity_type := entity_type, entity_id := entity_id,
         summary := summary, changes := changes }],
    nextActivityId := db.nextActivityId + 1 }

def MAX_UPLOAD_BYTES : Nat := 25 * 1024 * 1024

def LEAD_STATUSES : List String := ["NEW", "CONTACTED", "QUALIFIED", "PROPOSAL", "WON", "LOST"]
def IDEA_STATUSES : List String := ["BACKLOG", "IN_PROGRESS", "PARKED", "DONE"]
def PROJECT_STATUSES : List String := ["ACTIVE", "ON_HOLD", "DONE", "ARCHIVED"]
def TASK_STATUSES : List String := ["TODO", "DOING", "BLOCKED", "DONE"]

def ALLOWED_ASSET_MIME_TYPES : List String :=
  ["application/pdf", "application/postscript", "application/vnd.adobe.illustrator",
   "application/vnd.sketch", "image/gif", "image/jpeg", "image/png", "image/svg+xml",
   "image/webp", "video/mp4"]

def ALLOWED_ASSET_EXTENSIONS : List String :=
  [".ai", ".eps", ".gif", ".jpeg", ".jpg", ".mov", ".mp4", ".pdf", ".png",
   ".psd", ".sketch", ".svg", ".webp"]

/-! ### Contacts (main.py:172-384) -/

/-- `contacts_create` (main.py:172-199). -/
def contacts_create (db : DB) (now : Nat) (first_name last_name email phone role : String)
    (company_id : Option String) (notes : String) : DB :=
  let c : Contact :=
    { id := db.nextContactId,
      first_name := pyStrip first_name,
      last_name := pyStrip last_name,
      email := strippedOrNone email,
      phone := strippedOrNone phone,
      role := strippedOrNone role,
      company_id := parse_optional_int company_id,
      notes := strippedOrNone notes,
      created_at := now, updated_at := now }
  let db := { db with contacts := db.contacts ++ [c], nextContactId := db.nextContactId + 1 }
  add_activity db now "CREATE" "Contact" (some c.id)
    ("Created contact: " ++ c.first_name ++ " " ++ c.last_name) none

/-- The literal key list of the `before`/`after` snapshot dicts in
`contacts_update` (main.py:338, 350). -/
def contactFieldKeys : List String :=
  ["first_name", "last_name", "email", "phone", "role", "company_id", "notes"]

/-- Snapshot dict lookup: the value a Contact has for a snapshot key. -/
def contactField (c : Contact) (k : String) : FieldVal :=
  if k = "first_name" then .s (some c.first_name)
  else if k = "last_name" then .s (some c.last_name)
  else if k = "email" then .s c.email
  else if k = "phone" then .s c.phone
  else if k = "role" then .s c.role
  else if k = "company_id" then .n c.company_id
  else .s c.notes

/-- The diff comprehension of main.py:351:
`{k: {"from": before[k], "to": after[k]} for k in before if before[k] != after[k]}`. -/
def snapshotDiff (before after : Contact) : List (String × FieldVal × FieldVal) :=
  contactFieldKeys.filterMap fun k =>
    if contactField before k ≠ contactField after k then
      some (k, contactField before k, contactField after k)
    else none

/-- The field assignments of `contacts_update` (main.py:340-347) applied to
the stored contact. -/
def contactWithForm (c : Contact) (now : Nat) (first_name last_name email phone role : String)
    (company_id : Option String) (notes : String) : Contact :=
  { c with
    first_name := pyStrip first_name,
    last_name := pyStrip last_name,
    email := strippedOrNone email,
    phone := strippedOrNone phone,
    role := strippedOrNone role,
    company_id := parse_optional_int company_id,
    notes := strippedOrNone notes,
    updated_at := now }

/-- `contacts_update` (main.py:323-354). -/
def contacts_update (db : DB) (now : Nat) (contact_id : Nat)
    (first_name last_name email phone role : String)
    (company_id : Option String) (notes : String) : Except Err DB :=
  match db.contacts.find? (fun c => c.id == contact_id) with
  | none => .error .notFound
  | some c =>
    let c' := contactWithForm c now first_name last_name email phone role company_id notes
    let db' := { db with contacts := db.contacts.map (fun x => if x.id == contact_id then c' else x) }
    let changes := snapshotDiff c c'
    if changes = [] then .ok db'
    else
      .ok (add_activity db' now "UPDATE" "Contact" (some c'.id)
        ("Updated contact: " ++ c'.first_name ++ " " ++ c'.last_name)
        (some (.fieldDiffs changes)))

/-- `contacts_delete` (main.py:356-384): nullify references (touching
`updated_at` on Lead/Project/Event, not Asset), delete the row, log once. -/
def contacts_delete (db : DB) (now : Nat) (contact_id : Nat) : Except Err DB :=
  match db.contacts.find? (fun c => c.id == contact_id) with
  | none => .error .notFound
  | some contact =>
    let full_name := contact.first_name ++ " " ++ contact.last_name
    let db :=
      { db with
        leads := db.leads.map (fun l =>
          if l.contact_id == some contact_id then { l with contact_id := none, updated_at := now } else l),
        projects := db.projects.map (fun p =>
          if p.contact_id == some contact_id then { p with contact_id := none, updated_at := now } else p),
        assets := db.assets.map (fun a =>
          if a.contact_id == some contact_id then { a with contact_id := none } else a),
        events := db.events.map (fun e =>
          if e.contact_id == some contact_id then { e with contact_id := none, updated_at := now } else e),
        contacts := db.contacts.filter (fun c => c.id != contact_id) }
    .ok (add_activity db now "DELETE" "Contact" (some contact_id)
      ("Deleted contact: " ++ full_name) none)

/-! ### Companies, Leads, Ideas, Projects, Tasks, Events -/

/-- `companies_create` (main.py:392-404). -/
def companies_create (db : DB) (now : Nat) (name website notes : String) : DB :=
  let comp : Company :=
    { id := db.nextCompanyId, name := pyStrip name,
      website := strippedOrNone website, notes := strippedOrNone notes,
      created_at := now, updated_at := now }
  let db := { db with companies := db.companies ++ [comp], nextCompanyId := db.nextCompanyId + 1 }
  add_activity db now "CREATE" "Company" (some comp.id) ("Created company: " ++ comp.name) none

/-- `leads_create` (main.py:419-455).  `value_estimate` and `due_date` arrive
already parsed (`parse_optional_float` / `parse_optional_datetime` results). -/
def leads_create (db : DB) (now : Nat) (title status : String) (source : String)
    (value_estimate : Option Rat) (company_id contact_id : Option String)
    (next_step : String) (due_date : Option Nat) (notes : String) : DB :=
  let status := if LEAD_STATUSES.contains status then status else "NEW"
  let lead : Lead :=
    { id := db.nextLeadId, title := pyStrip title, status := status,
      source := strippedOrNone source, value_estimate := value_estimate,
      company_id := parse_optional_int company_id, contact_id := parse_optional_int contact_id,
      next_step := strippedOrNone next_step, due_date := due_date,
      notes := strippedOrNone notes, created_at := now, updated_at := now }
  let db := { db with leads := db.leads ++ [lead], nextLeadId := db.nextLeadId + 1 }
  add_activity db now "CREATE" "Lead" (some lead.id)
    ("Created lead: " ++ lead.title ++ " (" ++ lead.status ++ ")") none

/-- `leads_set_status` (main.py:457-471). -/
def leads_set_status (db : DB) (now : Nat) (lead_id : Nat) (status : String) : Except Err DB :=
  match db.leads.find? (fun l => l.id == lead_id) with
  | none => .error .notFound
  | some lead =>
    if !(LEAD_STATUSES.contains status) then .error .badRequest
    else if lead.status ≠ status then
      let db := { db with leads := db.leads.map (fun l =>
        if l.id == lead_id then { l with status := status, updated_at := now } else l) }
      .ok (add_activity db now "STATUS" "Lead" (some lead.id)
        ("Lead moved: " ++ lead.title) (some (.statusChange lead.status status)))
    else .ok db

/-- `ideas_create` (main.py:481-497). -/
def ideas_create (db : DB) (now : Nat) (title status tags notes : String) : DB :=
  let status := if IDEA_STATUSES.contains status then status else "BACKLOG"
  let idea : Idea :=
    { id := db.nextIdeaId, title := pyStrip title, status := status,
      tags := strippedOrNone tags, notes := strippedOrNone notes,
      created_at := now, updated_at := now }
  let db := { db with ideas := db.ideas ++ [idea], nextIdeaId := db.nextIdeaId + 1 }
  add_activity db now "CREATE" "Idea" (some idea.id) ("Created idea: " ++ idea.title) none

/-- `projects_create` (main.py:509-544); dates and budget arrive parsed. -/
def projects_create (db : DB) (now : Nat) (name status : String)
    (company_id contact_id : Option String) (start_date end_date : Option Nat)
    (budget : Option Rat) (notes : String) : DB :=
  let status := if PROJECT_STATUSES.contains status then status else "ACTIVE"
  let p : Project :=
    { id := db.nextProjectId, name := pyStrip name, status := status,
      company_id := parse_optional_int company_id, contact_id := parse_optional_int contact_id,
      start_date := start_date, end_date := end_date, budget := budget,
      notes := strippedOrNone notes, created_at := now, updated_at := now }
  let db := { db with projects := db.projects ++ [p], nextProjectId := db.nextProjectId + 1 }
  add_activity db now "CREATE" "Project" (some p.id) ("Created project: " ++ p.name) none

/-- `projects_set_status` (main.py:569-583). -/
def projects_set_status (db : DB) (now : Nat) (project_id : Nat) (status : String) : Except Err DB :=
  match db.projects.find? (fun p => p.id == project_id) with
  | none => .error .notFound
  | some p =>
    if !(PROJECT_STATUSES.contains status) then .error .badRequest
    else if p.status ≠ status then
      let db := { db with projects := db.projects.map (fun q =>
        if q.id == project_id then { q with status := status, updated_at := now } else q) }
      .ok (add_activity db now "STATUS" "Project" (some p.id)
        ("Project status changed: " ++ p.name) (some (.statusChange p.status status)))
    else .ok db

/-- `tasks_create` (main.py:588-606); `due_date` arrives parsed. -/
def tasks_create (db : DB) (now : Nat) (project_id : Nat) (title : String)
    (due_date : Option Nat) (status notes : String) : DB :=
  let status := if TASK_STATUSES.contains status then status else "TODO"
  let t : Task :=
    { id := db.nextTaskId, project_id := project_id, title := pyStrip title,
      status := status, due_date := due_date, notes := strippedOrNone notes,
      created_at := now, updated_at := now }
  let db := { db with tasks := db.tasks ++ [t], nextTaskId := db.nextTaskId + 1 }
  add_activity db now "CREATE" "Task" (some t.id) ("Created task: " ++ t.title)
    (some (.projectRef project_id))

/-- `tasks_set_status` (main.py:608-622). -/
def tasks_set_status (db : DB) (now : Nat) (task_id : Nat) (status : String) : Except Err DB :=
  match db.tasks.find? (fun t => t.id == task_id) with
  | none => .error .notFound
  | some t =>
    if !(TASK_STATUSES.contains status) then .error .badRequest
    else if t.status ≠ status then
      let db := { db with tasks := db.tasks.map (fun u =>
        if u.id == task_id then { u with status := status, updated_at := now } else u) }
      .ok (add_activity db now "STATUS" "Task" (some t.id)
        ("Task status changed: " ++ t.title) (some (.statusChange t.status status)))
    else .ok db

/-- `events_create` (main.py:631-671).  `start` is the
`datetime.fromisoformat` outcome (`none` = unparseable → HTTP 400); a bad
`end` silently degrades to `none` upstream. -/
def events_create (db : DB) (now : Nat) (title : String) (start end_ : Option Nat)
    (all_day : Bool) (project_id contact_id : Option String)
    (location notes : String) : Except Err DB :=
  match start with
  | none => .error .badRequest
  | some start_dt =>
    let e : Event :=
      { id := db.nextEventId, title := pyStrip title, start := start_dt, end_ := end_,
        all_day := all_day, project_id := parse_optional_int project_id,
        contact_id := parse_optional_int contact_id,
        location := strippedOrNone location, notes := strippedOrNone notes,
        created_at := now, updated_at := now }
    let db := { db with events := db.events ++ [e], nextEventId := db.nextEventId + 1 }
    .ok (add_activity db now "CREATE" "Event" (some e.id) ("Created event: " ++ e.title) none)

/-! ### Asset ingestion pipeline (main.py:757-874) -/

/-- POSIX `os.path.basename`: the text after the last `/`. -/
def osPathBasename (p : String) : String :=
  ⟨(p.data.reverse.takeWhile (fun c => c != '/')).reverse⟩

/-- `pathlib.PurePath.suffix` restricted to a bare file name: text from the
last `.` when that dot is neither the first nor the last character. -/
def pathSuffix (name : String) : String :=
  let cs := name.data
  match cs.reverse.findIdx? (fun c => c == '.') with
  | none => ""
  | some r =>
    let i := cs.length - 1 - r
    if 0 < i ∧ i < cs.length - 1 then ⟨cs.drop i⟩ else ""

/-- `file.content_type or mimetypes.guess_type(safe_name)[0]` (main.py:777).
The `mimetypes` table lookup is an input (`guessed`). -/
def resolveMime (content_type guessed : Option String) : Option String :=
  match content_type with
  | some s => if s = "" then guessed else some s
  | none => guessed

/-- `mime not in ALLOWED_ASSET_MIME_TYPES` negated: a `None` mime is never in
the set. -/
def mimeAllowed (m : Option String) : Bool :=
  match m with
  | some s => ALLOWED_ASSET_MIME_TYPES.contains s
  | none => false

/-- An uploaded file as the handler sees it: client-supplied name, declared
content type and raw bytes. -/
structure UpFile where
  filename : String
  content_type : Option String
  content : List Nat
deriving DecidableEq, Repr

/-- `save_asset_upload` (main.py:757-809).  `guessed` is the
`mimetypes.guess_type` result for the sanitized name, `token` the
`uuid.uuid4().hex` value of this request.  Returns the new `Asset`, or
`none` for the missing-filename and duplicate-skip outcomes. -/
def save_asset_upload (db : DB) (now : Nat) (file : UpFile) (guessed : Option String)
    (token : String) (tags : String) (project_id_value contact_id_value : Option Nat)
    (notes : String) : Except Err (DB × Option Asset) :=
  if file.filename = "" then .ok (db, none)
  else
    let safe_name := osPathBasename file.filename
    let stored_name := token ++ "_" ++ safe_name
    let content := file.content
    if content.length > MAX_UPLOAD_BYTES then .error .payloadTooLarge
    else
      let mime := resolveMime file.content_type guessed
      let ext := pyLower (pathSuffix safe_name)
      if !(mimeAllowed mime) && !(ALLOWED_ASSET_EXTENSIONS.contains ext) then
        .error .unsupportedType
      else
        let size_bytes := content.length
        match db.assets.find? (fun a =>
            a.filename == safe_name && a.size_bytes == some size_bytes && a.mime_type == mime) with
        | some _ => .ok (db, none)
        | none =>
          let a : Asset :=
            { id := db.nextAssetId, filename := safe_name, stored_path := stored_name,
              mime_type := mime, size_bytes := some size_bytes,
              tags := strippedOrNone tags, project_id := project_id_value,
              contact_id := contact_id_value, notes := strippedOrNone notes,
              created_at := now }
          let db :=
            { db with
              files := db.files ++ [(stored_name, content)],
              assets := db.assets ++ [a], nextAssetId := db.nextAssetId + 1 }
          let db := add_activity db now "UPLOAD" "Asset" (some a.id)
            ("Uploaded asset: " ++ a.filename) (some (.uploadMeta a.size_bytes a.mime_type))
          .ok (db, some a)

/-- `assets_delete` (main.py:863-874): unlink the stored file if present,
delete the row, log once. -/
def assets_delete (db : DB) (now : Nat) (asset_id : Nat) : Except Err DB :=
  match db.assets.find? (fun a => a.id == asset_id) with
  | none => .error .notFound
  | some asset =>
    let db :=
      { db with
        files := db.files.filter (fun f => f.1 != asset.stored_path),
        assets := db.assets.filter (fun a => a.id != asset_id) }
    .ok (add_activity db now "DELETE" "Asset" (some asset_id)
      ("Deleted asset: " ++ asset.filename) none)

/-! ### Contact import reconciler (main.py:201-299)

The model starts at the parsed table: `header` is `reader.fieldnames`, each
row the list of its cell strings.  Byte decoding, CSV tokenization, the
missing-file redirect, the missing-header 400 and the 25 MiB ceiling sit
above this level; every claim about the reconciler is row-level. -/

/-- Right-biased dict lookup (Python dict comprehension: later keys win). -/
def dictGetLast {α : Type} (d : List (String × α)) (k : String) : Option α :=
  (d.reverse.find? (fun kv => kv.1 == k)).map (·.2)

/-- `{name.lower().strip(): name for name in reader.fieldnames if name}`. -/
def mkFieldnames (header : List String) : List (String × String) :=
  (header.filter (fun h => h != "")).map (fun h => (pyStrip (pyLower h), h))

/-- The `csv.DictReader` row dict: header column ↦ cell, `None` when the row
is shorter than the header. -/
def rowDict (header : List String) (row : List String) : List (String × Option String) :=
  header.enum.map (fun p => (p.2, row.get? p.1))

/-- `get_value` (main.py:218-229): first alias whose cell strips to nonblank. -/
def get_value (fns : List (String × String)) (rowd : List (String × Option String)) :
    List String → String
  | [] => ""
  | key :: keys =>
    match dictGetLast fns key with
    | none => get_value fns rowd keys
    | some column =>
      if column = "" then get_value fns rowd keys
      else
        match dictGetLast rowd column with
        | none => get_value fns rowd keys
        | some none => get_value fns rowd keys
        | some (some v) =>
          let cleaned := pyStrip v
          if cleaned ≠ "" then cleaned else get_value fns rowd keys

/-- The full-name fallback (main.py:240-245): when `full_name` is nonblank
and first or last name is blank, split on whitespace and fill only the blank
parts. -/
def applyFullName (first_name last_name full_name : String) : String × String :=
  if full_name ≠ "" ∧ (first_name = "" ∨ last_name = "") then
    let name_parts := pySplitWs full_name
    let f := if first_name = "" then
        (match name_parts with | p :: _ => p | [] => full_name)
      else first_name
    let l := if last_name = "" then
        (if name_parts.length > 1 then String.intercalate " " (name_parts.drop 1) else "")
      else last_name
    (f, l)
  else (first_name, last_name)

/-- Import progress: the evolving store plus the two counters. -/
structure ImpState where
  db : DB
  imported : Nat
  skipped : Nat
deriving DecidableEq, Repr

/-- One iteration of the `for contact_email in emails` loop
(main.py:269-297). -/
def importEmailStep (now : Nat) (first_name last_name phone role notes : String)
    (company_id : Option Nat) (st : ImpState) (contact_email : String) : ImpState :=
  let nm :=
    if first_name = "" ∧ last_name = "" ∧ contact_email ≠ "" then name_from_email contact_email
    else (first_name, last_name)
  let contact_first := nm.1
  let contact_last := nm.2
  if contact_first = "" ∧ contact_last = "" then { st with skipped := st.skipped + 1 }
  else if contact_email ≠ "" ∧
      (st.db.contacts.find? (fun c => c.email == some contact_email)).isSome then
    { st with skipped := st.skipped + 1 }
  else
    let c : Contact :=
      { id := st.db.nextContactId, first_name := contact_first, last_name := contact_last,
        email := blankToNone contact_email, phone := blankToNone phone,
        role := blankToNone role, company_id := company_id, notes := blankToNone notes,
        created_at := now, updated_at := now }
    let db :=
      { st.db with
        contacts := st.db.contacts ++ [c],
        nextContactId := st.db.nextContactId + 1 }
    let db := add_activity db now "CREATE" "Contact" (some c.id)
      ("Imported contact: " ++ c.first_name ++ " " ++ c.last_name) none
    { db := db, imported := st.imported + 1, skipped := st.skipped }

/-- Company resolution/auto-creation of main.py:256-264: case-insensitive
exact name match, else insert a new Company (without logging an Activity). -/
def resolveCompany (db : DB) (now : Nat) (company_name : String) : DB × Option Nat :=
  if company_name = "" then (db, none)
  else
    match db.companies.find? (fun comp => pyLower comp.name == pyLower company_name) with
    | some comp => (db, some comp.id)
    | none =>
      let comp : Company :=
        { id := db.nextCompanyId, name := company_name, website := none,
          notes := none, created_at := now, updated_at := now }
      ({ db with
         companies := db.companies ++ [comp],
         nextCompanyId := db.nextCompanyId + 1 }, some comp.id)

/-- The non-skipped tail of a row iteration (main.py:256-297): resolve the
company, substitute the blank-email placeholder when no email was derived,
and run the per-email contact loop. -/
def importRowBody (now : Nat) (first_name last_name phone role notes company_name : String)
    (st : ImpState) (emails : List String) : ImpState :=
  let resolved := resolveCompany st.db now company_name
  let emails := if emails = [] then [""] else emails
  emails.foldl (importEmailStep now first_name last_name phone role notes resolved.2)
    { db := resolved.1, imported := st.imported, skipped := st.skipped }

/-- One iteration of the row loop (main.py:233-297). -/
def importRow (fns : List (String × String)) (header : List String) (now : Nat)
    (st : ImpState) (row : List String) : ImpState :=
  let rowd := rowDict header row
  let first_name0 := get_value fns rowd ["first_name", "first name", "first"]
  let last_name0 := get_value fns rowd ["last_name", "last name", "last"]
  let full_name := get_value fns rowd ["full_name", "full name", "name", "magazine", "publication"]
  let email := get_value fns rowd ["email", "email_address", "email address"]
  let emails_value := get_value fns rowd ["emails", "email_list", "email list"]
  let emails := if email ≠ "" then [email] else extract_emails emails_value
  let names := applyFullName first_name0 last_name0 full_name
  let first_name := names.1
  let last_name := names.2
  if emails = [] ∧ first_name = "" ∧ last_name = "" then
    { st with skipped := st.skipped + 1 }
  else
    let phone := get_value fns rowd ["phone", "phone_number", "phone number"]
    let role := get_value fns rowd ["role", "title"]
    let notes := get_value fns rowd ["notes", "note"]
    let site_name := get_value fns rowd ["site", "website", "url"]
    let company_name0 := get_value fns rowd ["company", "company_name", "company name"]
    let company_name := if company_name0 = "" ∧ site_name ≠ "" then site_name else company_name0
    importRowBody now first_name last_name phone role notes company_name st emails

/-- `contacts_import` (main.py:201-299) from the parsed table down. -/
def contacts_import (db : DB) (now : Nat) (header : List String)
    (rows : List (List String)) : ImpState :=
  let fns := mkFieldnames header
  rows.foldl (importRow fns header now) { db := db, imported := 0, skipped := 0 }

/-! ## Verification -/

/-- Any asset the pipeline stores satisfies the size ceiling and the
mime-or-extension allow-list, so the side conditions of the duplicate-skip
theorem hold for every pipeline-produced asset. -/
theorem save_asset_upload_created_valid (db : DB) (now : Nat) (file : UpFile)
    (guessed : Option String) (token tags : String) (pid cid : Option Nat) (notes : String)
    (db' : DB) (a : Asset)
    (h : save_asset_upload db now file guessed token tags pid cid notes = .ok (db', some a)) :
    a.size_bytes = some file.content.length ∧
    file.content.length ≤ MAX_UPLOAD_BYTES ∧
    a.filename = osPathBasename file.filename ∧
    a.mime_type = resolveMime file.content_type guessed ∧
    (mimeAllowed a.mime_type = true ∨
      ALLOWED_ASSET_EXTENSIONS.contains (pyLower (pathSuffix a.filename)) = true) := by
  unfold save_asset_upload at h
  by_cases h1 : file.filename = ""
  · simp [h1] at h
  · rw [if_neg h1] at h
    by_cases h2 : file.content.length > MAX_UPLOAD_BYTES
    · rw [if_pos h2] at h
      exact absurd h (by simp)
    · rw [if_neg h2] at h
      by_cases h3 : (!mimeAllowed (resolveMime file.content_type guessed) &&
          !ALLOWED_ASSET_EXTENSIONS.contains (pyLower (pathSuffix (osPathBasename file.filename)))) = true
      · rw [if_pos h3] at h
        exact absurd h (by simp)
      · rw [if_neg h3] at h
        dsimp only at h
        split at h
        · exact absurd h (by simp)
        · simp only [Except.ok.injEq, Prod.mk.injEq, Option.some.injEq] at h
          obtain ⟨-, ha⟩ := h
          subst ha
          refine ⟨rfl, by omega, rfl, rfl, ?_⟩
          show mimeAllowed (resolveMime file.content_type guessed) = true ∨
            ALLOWED_ASSET_EXTENSIONS.contains (pyLower (pathSuffix (osPathBasename file.filename))) = true
          by_cases hm : mimeAllowed (resolveMime file.content_type guessed) = true
          · exact Or.inl hm
          · right
            by_cases he : ALLOWED_ASSET_EXTENSIONS.contains
                (pyLower (pathSuffix (osPathBasename file.filename))) = true
            · exact he
            · have hmf := Bool.eq_false_iff.mpr hm
              have hef := Bool.eq_false_iff.mpr he
              exact absurd (by rw [hmf, hef]; rfl) h3

/-- C2.  Asset upload dedup is idempotent: when some stored Asset already has
the triple (sanitized filename, byte length, resolved mime) of the upload —
which passes the size and type gates, as every pipeline-stored asset does —
`save_asset_upload` writes no file, creates no record, leaves the state
untouched and returns the duplicate-skip `none` outcome; since the state is
returned unchanged, any repetition of the upload yields the same outcome. -/
theorem asset_upload_duplicate_skip_idempotent
    (db : DB) (now : Nat) (file : UpFile) (guessed : Option String) (token tags : String)
    (pid cid : Option Nat) (notes : String) (a : Asset)
    (hmem : a ∈ db.assets)
    (hname : a.filename = osPathBasename file.filename)
    (hsize : a.size_bytes = some file.content.length)
    (hmime : a.mime_type = resolveMime file.content_type guessed)
    (hfn : file.filename ≠ "")
    (hsz : file.content.length ≤ MAX_UPLOAD_BYTES)
    (hacc : mimeAllowed (resolveMime file.content_type guessed) = true ∨
      ALLOWED_ASSET_EXTENSIONS.contains (pyLower (pathSuffix (osPathBasename file.filename))) = true) :
    save_asset_upload db now file guessed token tags pid cid notes = .ok (db, none) := by
  unfold save_asset_upload
  rw [if_neg hfn, if_neg (by omega : ¬ file.content.length > MAX_UPLOAD_BYTES)]
  have hcond : (!mimeAllowed (resolveMime file.content_type guessed) &&
      !ALLOWED_ASSET_EXTENSIONS.contains (pyLower (pathSuffix (osPathBasename file.filename)))) = false := by
    rcases hacc with h | h <;> rw [h] <;>
      simp only [Bool.not_true, Bool.false_and, Bool.and_false]
  rw [if_neg (by rw [hcond]; exact Bool.false_ne_true)]
  have hsome : (db.assets.find? (fun x =>
      x.filename == osPathBasename file.filename &&
      x.size_bytes == some file.content.length &&
      x.mime_type == resolveMime file.content_type guessed)).isSome := by
    refine List.find?_isSome.mpr ⟨a, hmem, ?_⟩
    simp [hname, hsize, hmime]
  obtain ⟨x, hx⟩ := Option.isSome_iff_exists.mp hsome
  dsimp only
  split
  · rfl
  · rename_i hnone
    rw [hnone] at hx
    exact absurd hx (by simp)

/-- Witness for C2: re-uploading `one.png` (same name, 3 bytes, `image/png`)
over a store already holding that exact triple is a no-op returning `none`. -/
theorem asset_upload_duplicate_skip_idempotent_witness :
    save_asset_upload
      { emptyDB with
        assets := [{ id := 1, filename := "one.png", stored_path := "tok1_one.png",
                     mime_type := some "image/png", size_bytes := some 3, tags := none,
                     project_id := none, contact_id := none, notes := none, created_at := 0 }],
        files := [("tok1_one.png", [1, 2, 3])], nextAssetId := 2 }
      5 { filename := "one.png", content_type := some "image/png", content := [1, 2, 3] }
      none "tok2" "" none none "" =
    .ok ({ emptyDB with
           assets := [{ id := 1, filename := "one.png", stored_path := "tok1_one.png",
                        mime_type := some "image/png", size_bytes := some 3, tags := none,
                        project_id := none, contact_id := none, notes := none, created_at := 0 }],
           files := [("tok1_one.png", [1, 2, 3])], nextAssetId := 2 }, none) :=
  asset_upload_duplicate_skip_idempotent _ 5 _ none "tok2" "" none none ""
    { id := 1, filename := "one.png", stored_path := "tok1_one.png",
      mime_type := some "image/png", size_bytes := some 3, tags := none,
      project_id := none, contact_id := none, notes := none, created_at := 0 }
    (by decide) (by decide) (by decide) (by decide) (by decide) (by decide) (by decide)

/-- C7.  With the size gate passed, an upload is rejected as
unsupported-type exactly when the resolved mime is outside the allowed mime
set AND the lower-cased extension is outside the allowed extension set:
either signal alone suffices for acceptance. -/
theorem asset_upload_reject_iff
    (db : DB) (now : Nat) (file : UpFile) (guessed : Option String) (token tags : String)
    (pid cid : Option Nat) (notes : String)
    (hfn : file.filename ≠ "")
    (hsz : file.content.length ≤ MAX_UPLOAD_BYTES) :
    save_asset_upload db now file guessed token tags pid cid notes = .error .unsupportedType ↔
      (mimeAllowed (resolveMime file.content_type guessed) = false ∧
       ALLOWED_ASSET_EXTENSIONS.contains (pyLower (pathSuffix (osPathBasename file.filename))) = false) := by
  unfold save_asset_upload
  rw [if_neg hfn, if_neg (by omega : ¬ file.content.length > MAX_UPLOAD_BYTES)]
  by_cases h3 : (!mimeAllowed (resolveMime file.content_type guessed) &&
      !ALLOWED_ASSET_EXTENSIONS.contains (pyLower (pathSuffix (osPathBasename file.filename)))) = true
  · rw [if_pos h3]
    rw [Bool.and_eq_true, Bool.not_eq_true', Bool.not_eq_true'] at h3
    exact iff_of_true rfl h3
  · rw [if_neg h3]
    dsimp only
    constructor
    · intro h
      split at h <;> exact absurd h (by simp)
    · rintro ⟨hm, he⟩
      rw [Bool.and_eq_true, Bool.not_eq_true', Bool.not_eq_true'] at h3
      exact absurd ⟨hm, he⟩ h3

/-- Witness for C7: a `.exe` file whose resolved mime is not in the allow
list is rejected regardless of the declared content type. -/
theorem asset_upload_reject_iff_witness :
    save_asset_upload emptyDB 0
      { filename := "evil.exe", content_type := some "application/octet-stream", content := [0] }
      none "tok" "" none none "" = .error .unsupportedType :=
  (asset_upload_reject_iff emptyDB 0
      { filename := "evil.exe", content_type := some "application/octet-stream", content := [0] }
      none "tok" "" none none "" (by decide) (by decide)).mpr (by decide)

/-- C3.  Status validation is asymmetric across all four status-bearing
entity types: an out-of-range status on create is silently coerced to the
type's default (NEW / BACKLOG / ACTIVE / TODO), while on the dedicated
status-change operation it is rejected as an error (404 when the id is
unknown, 400 otherwise) — and on error no state is committed. -/
theorem status_validation_asymmetry (db : DB) (now : Nat) (status : String) :
    (status ∉ LEAD_STATUSES →
      (∀ title source ve coid ctid ns dd notes, ∃ l : Lead,
        (leads_create db now title status source ve coid ctid ns dd notes).leads =
          db.leads ++ [l] ∧ l.status = "NEW") ∧
      (∀ lead_id, ∃ e, leads_set_status db now lead_id status = .error e)) ∧
    (status ∉ IDEA_STATUSES →
      ∀ title tags notes, ∃ i : Idea,
        (ideas_create db now title status tags notes).ideas = db.ideas ++ [i] ∧
          i.status = "BACKLOG") ∧
    (status ∉ PROJECT_STATUSES →
      (∀ name coid ctid sd ed budget notes, ∃ p : Project,
        (projects_create db now name status coid ctid sd ed budget notes).projects =
          db.projects ++ [p] ∧ p.status = "ACTIVE") ∧
      (∀ project_id, ∃ e, projects_set_status db now project_id status = .error e)) ∧
    (status ∉ TASK_STATUSES →
      (∀ pid title dd notes, ∃ t : Task,
        (tasks_create db now pid title dd status notes).tasks = db.tasks ++ [t] ∧
          t.status = "TODO") ∧
      (∀ task_id, ∃ e, tasks_set_status db now task_id status = .error e)) := by
  refine ⟨fun h => ⟨?_, ?_⟩, fun h => ?_, fun h => ⟨?_, ?_⟩, fun h => ⟨?_, ?_⟩⟩
  · intro title source ve coid ctid ns dd notes
    exact ⟨_, rfl, by simp [leads_create, h]⟩
  · intro lead_id
    have hc : LEAD_STATUSES.contains status = false :=
      Bool.eq_false_iff.mpr (fun hT => h (List.elem_iff.mp hT))
    unfold leads_set_status
    rcases hf : db.leads.find? (fun l => l.id == lead_id) with _ | lead
    · rw [hf]
      exact ⟨.notFound, rfl⟩
    · rw [hf]
      dsimp only
      exact ⟨.badRequest, by rw [if_pos (by rw [hc]; rfl)]⟩
  · intro title tags notes
    exact ⟨_, rfl, by simp [ideas_create, h]⟩
  · intro name coid ctid sd ed budget notes
    exact ⟨_, rfl, by simp [projects_create, h]⟩
  · intro project_id
    have hc : PROJECT_STATUSES.contains status = false :=
      Bool.eq_false_iff.mpr (fun hT => h (List.elem_iff.mp hT))
    unfold projects_set_status
    rcases hf : db.projects.find? (fun p => p.id == project_id) with _ | p
    · rw [hf]
      exact ⟨.notFound, rfl⟩
    · rw [hf]
      dsimp only
      exact ⟨.badRequest, by rw [if_pos (by rw [hc]; rfl)]⟩
  · intro pid title dd notes
    exact ⟨_, rfl, by simp [tasks_create, h]⟩
  · intro task_id
    have hc : TASK_STATUSES.contains status = false :=
      Bool.eq_false_iff.mpr (fun hT => h (List.elem_iff.mp hT))
    unfold tasks_set_status
    rcases hf : db.tasks.find? (fun t => t.id == task_id) with _ | t
    · rw [hf]
      exact ⟨.notFound, rfl⟩
    · rw [hf]
      dsimp only
      exact ⟨.badRequest, by rw [if_pos (by rw [hc]; rfl)]⟩

/-- Witness for C3: the invalid status "PURPLE" is coerced on every create
and rejected on every status-change operation. -/
theorem status_validation_asymmetry_witness :
    (∃ l : Lead, (leads_create emptyDB 0 "L" "PURPLE" "" none none none "" none "").leads =
      emptyDB.leads ++ [l] ∧ l.status = "NEW") ∧
    (∃ e, leads_set_status emptyDB 0 1 "PURPLE" = .error e) ∧
    (∃ i : Idea, (ideas_create emptyDB 0 "I" "PURPLE" "" "").ideas =
      emptyDB.ideas ++ [i] ∧ i.status = "BACKLOG") ∧
    (∃ p : Project, (projects_create emptyDB 0 "P" "PURPLE" none none none none none "").projects =
      emptyDB.projects ++ [p] ∧ p.status = "ACTIVE") ∧
    (∃ e, projects_set_status emptyDB 0 1 "PURPLE" = .error e) ∧
    (∃ t : Task, (tasks_create emptyDB 0 1 "T" none "PURPLE" "").tasks =
      emptyDB.tasks ++ [t] ∧ t.status = "TODO") ∧
    (∃ e, tasks_set_status emptyDB 0 1 "PURPLE" = .error e) := by
  have h := status_validation_asymmetry emptyDB 0 "PURPLE"
  exact ⟨(h.1 (by decide)).1 "L" "" none none none "" none "",
    (h.1 (by decide)).2 1,
    h.2.1 (by decide) "I" "" "",
    (h.2.2.1 (by decide)).1 "P" none none none none none "",
    (h.2.2.1 (by decide)).2 1,
    (h.2.2.2 (by decide)).1 1 "T" none "",
    (h.2.2.2 (by decide)).2 1⟩

/-- Membership in the diff comprehension: a triple is recorded exactly for
the snapshot keys whose before/after values differ, with the stored pair
being precisely (before value, after value). -/
theorem snapshotDiff_mem (before after : Contact) (k : String) (b a : FieldVal) :
    (k, b, a) ∈ snapshotDiff before after ↔
      (k ∈ contactFieldKeys ∧ b = contactField before k ∧ a = contactField after k ∧ b ≠ a) := by
  simp only [snapshotDiff, List.mem_filterMap]
  constructor
  · rintro ⟨k', hk', hsome⟩
    by_cases hne : contactField before k' ≠ contactField after k'
    · rw [if_pos hne] at hsome
      simp only [Option.some.injEq, Prod.mk.injEq] at hsome
      obtain ⟨rfl, hb, ha⟩ := hsome
      subst hb
      subst ha
      exact ⟨hk', rfl, rfl, hne⟩
    · rw [if_neg hne] at hsome
      exact absurd hsome (by simp)
  · rintro ⟨hk, rfl, rfl, hne⟩
    exact ⟨k, hk, by rw [if_pos hne]⟩

/-- C4.  A contact update records, as the Activity's `changes`, exactly the
restriction of the before/after field snapshots to the keys whose values
differ (each entry carrying that key's before and after values), and when no
field differs the update appends no Activity at all. -/
theorem contact_update_records_exact_diff
    (db : DB) (now : Nat) (cid : Nat) (fn ln em ph rl : String) (coid : Option String)
    (nts : String) (c : Contact)
    (hfind : db.contacts.find? (fun x => x.id == cid) = some c) :
    ∃ db', contacts_update db now cid fn ln em ph rl coid nts = .ok db' ∧
      (∀ k b a, (k, b, a) ∈ snapshotDiff c (contactWithForm c now fn ln em ph rl coid nts) ↔
        (k ∈ contactFieldKeys ∧ b = contactField c k ∧
         a = contactField (contactWithForm c now fn ln em ph rl coid nts) k ∧ b ≠ a)) ∧
      (snapshotDiff c (contactWithForm c now fn ln em ph rl coid nts) = [] →
        db'.activities = db.activities) ∧
      (snapshotDiff c (contactWithForm c now fn ln em ph rl coid nts) ≠ [] →
        ∃ act, db'.activities = db.activities ++ [act] ∧ act.action = "UPDATE" ∧
          act.changes = some (.fieldDiffs
            (snapshotDiff c (contactWithForm c now fn ln em ph rl coid nts)))) := by
  unfold contacts_update
  rw [hfind]
  dsimp only
  by_cases hd : snapshotDiff c (contactWithForm c now fn ln em ph rl coid nts) = []
  · rw [if_pos hd]
    exact ⟨_, rfl, fun k b a => snapshotDiff_mem c _ k b a, fun _ => rfl,
      fun hne => absurd hd hne⟩
  · rw [if_neg hd]
    exact ⟨_, rfl, fun k b a => snapshotDiff_mem c _ k b a, fun heq => absurd heq hd,
      fun _ => ⟨_, rfl, rfl, rfl⟩⟩

/-- Fixture: a store holding a single contact Ada Lovelace. -/
def cAda : Contact :=
  { id := 1, first_name := "Ada", last_name := "Lovelace", email := some "ada@x.com",
    phone := none, role := none, company_id := none, notes := none,
    created_at := 0, updated_at := 0 }

def dbAda : DB := { emptyDB with contacts := [cAda], nextContactId := 2 }

/-- Witness for C4: renaming Ada Lovelace to Ada Hopper records one UPDATE
Activity whose changes are exactly the nonempty snapshot diff. -/
theorem contact_update_records_exact_diff_witness :
    ∃ db', contacts_update dbAda 9 1 "Ada" "Hopper" "" "" "" none "" = .ok db' ∧
      ∃ act, db'.activities = dbAda.activities ++ [act] ∧ act.action = "UPDATE" ∧
        act.changes = some (.fieldDiffs
          (snapshotDiff cAda (contactWithForm cAda 9 "Ada" "Hopper" "" "" "" none ""))) := by
  obtain ⟨db', hok, -, -, hne⟩ :=
    contact_update_records_exact_diff dbAda 9 1 "Ada" "Hopper" "" "" "" none "" cAda (by decide)
  exact ⟨db', hok, hne (by decide)⟩

/-- C9.  A no-op contact update (every submitted field normalising to the
stored value) still commits a refreshed `updated_at` on the contact — and
only that — while appending no Activity: the resulting state differs from
the input only in that one contact field. -/
theorem noop_contact_update_touches_updated_at
    (db : DB) (now : Nat) (cid : Nat) (fn ln em ph rl : String) (coid : Option String)
    (nts : String) (c : Contact)
    (hfind : db.contacts.find? (fun x => x.id == cid) = some c)
    (h1 : pyStrip fn = c.first_name) (h2 : pyStrip ln = c.last_name)
    (h3 : strippedOrNone em = c.email) (h4 : strippedOrNone ph = c.phone)
    (h5 : strippedOrNone rl = c.role) (h6 : parse_optional_int coid = c.company_id)
    (h7 : strippedOrNone nts = c.notes) :
    contacts_update db now cid fn ln em ph rl coid nts =
      .ok { db with contacts := db.contacts.map (fun x =>
        if x.id == cid then { c with updated_at := now } else x) } := by
  have hform : contactWithForm c now fn ln em ph rl coid nts = { c with updated_at := now } := by
    simp [contactWithForm, h1, h2, h3, h4, h5, h6, h7]
  unfold contacts_update
  rw [hfind]
  dsimp only
  rw [hform]
  have hdiff : snapshotDiff c { c with updated_at := now } = [] := by
    simp [snapshotDiff, contactFieldKeys, contactField]
  rw [if_pos hdiff]

/-- Witness for C9: submitting Ada's fields unchanged bumps `updated_at`
to 9 and appends nothing. -/
theorem noop_contact_update_touches_updated_at_witness :
    contacts_update dbAda 9 1 "Ada" "Lovelace" "ada@x.com" "" "" none "" =
      .ok { dbAda with contacts := dbAda.contacts.map (fun x =>
        if x.id == 1 then { cAda with updated_at := 9 } else x) } :=
  noop_contact_update_touches_updated_at dbAda 9 1 "Ada" "Lovelace" "ada@x.com" "" "" none ""
    cAda (by decide) (by decide) (by decide) (by decide) (by decide) (by decide)
    (by decide) (by decide)

/-- Fixture: Ada plus a project referencing her, last updated at time 0. -/
def pSite : Project :=
  { id := 1, name := "Site", status := "ACTIVE", company_id := none,
    contact_id := some 1, start_date := none, end_date := none, budget := none,
    notes := none, created_at := 0, updated_at := 0 }

def dbAdaProj : DB :=
  { emptyDB with
    contacts := [cAda], nextContactId := 2,
    projects := [pSite],
    nextProjectId := 2 }

/-- Counterexample to C8 as stated: deleting the contact at time 7 does leave
the referencing project in place with `contact_id = none`, but its
`updated_at` field changes from 0 to 7, so not all of its other fields are
unchanged. -/
theorem contact_delete_touches_updated_at_counterexample :
    dbAdaProj.projects.map (fun p => p.updated_at) = [0] ∧
    (contacts_delete dbAdaProj 7 1).map
      (fun d => d.projects.map (fun p => (p.contact_id, p.updated_at))) = .ok [(none, 7)] ∧
    (7 : Nat) ≠ 0 := by decide

/-- C8 amended.  Deleting a Contact removes only that contact row: every
Lead, Project, Asset and Event survives (table lengths unchanged); a row
that referenced the contact survives with `contact_id` nullified and — on
Lead, Project and Event — `updated_at` refreshed to the deletion time, all
its other fields unchanged (Asset, having no `updated_at`, keeps all other
fields); non-referencing rows are untouched, other tables and the file
store are untouched, and exactly one DELETE Activity is appended. -/
theorem contact_delete_nullifies_refs (db : DB) (now cid : Nat) (c : Contact)
    (hfind : db.contacts.find? (fun x => x.id == cid) = some c) :
    ∃ db', contacts_delete db now cid = .ok db' ∧
      db'.contacts = db.contacts.filter (fun x => x.id != cid) ∧
      db'.leads.length = db.leads.length ∧
      db'.projects.length = db.projects.length ∧
      db'.assets.length = db.assets.length ∧
      db'.events.length = db.events.length ∧
      (∀ l ∈ db.leads,
        (if l.contact_id == some cid then { l with contact_id := none, updated_at := now } else l)
          ∈ db'.leads) ∧
      (∀ p ∈ db.projects,
        (if p.contact_id == some cid then { p with contact_id := none, updated_at := now } else p)
          ∈ db'.projects) ∧
      (∀ a ∈ db.assets,
        (if a.contact_id == some cid then { a with contact_id := none } else a) ∈ db'.assets) ∧
      (∀ e ∈ db.events,
        (if e.contact_id == some cid then { e with contact_id := none, updated_at := now } else e)
          ∈ db'.events) ∧
      db'.companies = db.companies ∧ db'.ideas = db.ideas ∧ db'.tasks = db.tasks ∧
      db'.files = db.files ∧
      ∃ act, db'.activities = db.activities ++ [act] ∧
        act.action = "DELETE" ∧ act.entity_type = "Contact" ∧ act.entity_id = some cid := by
  unfold contacts_delete
  rw [hfind]
  dsimp only
  refine ⟨_, rfl, rfl, by simp [add_activity], by simp [add_activity], by simp [add_activity],
    by simp [add_activity], fun l hl => List.mem_map_of_mem _ hl,
    fun p hp => List.mem_map_of_mem _ hp, fun a ha => List.mem_map_of_mem _ ha,
    fun e he => List.mem_map_of_mem _ he, rfl, rfl, rfl, rfl, _, rfl, rfl, rfl, rfl⟩

/-- Witness for C8 amended: deleting Ada from the fixture store keeps the
referencing project with `contact_id` nullified. -/
theorem contact_delete_nullifies_refs_witness :
    ∃ db', contacts_delete dbAdaProj 7 1 = .ok db' ∧
      db'.projects.length = dbAdaProj.projects.length ∧ db'.contacts = [] := by
  obtain ⟨db', hok, hcontacts, -, hplen, -⟩ :=
    contact_delete_nullifies_refs dbAdaProj 7 1 cAda (by decide)
  refine ⟨db', hok, hplen, ?_⟩
  rw [hcontacts]
  decide

/-- Counterexample to C5 as stated: in a row with `first=Ada` and
`name=Grace Hopper`, first_name is present and last_name missing, yet the
full name is still split — the import stores last_name "Hopper" instead of
leaving it untouched (empty). -/
theorem fullname_split_counterexample :
    applyFullName "Ada" "" "Grace Hopper" = ("Ada", "Hopper") ∧
    (contacts_import emptyDB 0 ["first", "name"] [["Ada", "Grace Hopper"]]).db.contacts.map
      (fun c => (c.first_name, c.last_name)) = [("Ada", "Hopper")] ∧
    ("Hopper" : String) ≠ "" := by decide

/-- C5 amended.  The full-name fallback fires when full_name is present and
at least one of first_name/last_name is missing (not only when both are),
and it fills only the missing parts: a present first_name or last_name is
never altered; a missing first_name becomes the first whitespace token; a
missing last_name becomes the remaining tokens joined by single spaces
(empty when there is at most one token). -/
theorem fullname_split_fills_only_missing (first_name last_name full_name : String) :
    ((first_name ≠ "" → (applyFullName first_name last_name full_name).1 = first_name) ∧
     (last_name ≠ "" → (applyFullName first_name last_name full_name).2 = last_name)) ∧
    (full_name = "" → applyFullName first_name last_name full_name = (first_name, last_name)) ∧
    (full_name ≠ "" → first_name = "" →
      (applyFullName first_name last_name full_name).1 =
        (match pySplitWs full_name with | p :: _ => p | [] => full_name)) ∧
    (full_name ≠ "" → last_name = "" →
      (applyFullName first_name last_name full_name).2 =
        (if (pySplitWs full_name).length > 1 then
          String.intercalate " " ((pySplitWs full_name).drop 1) else "")) := by
  unfold applyFullName
  by_cases hfull : full_name = ""
  · simp [hfull]
  · by_cases hf : first_name = ""
    · by_cases hl : last_name = ""
      · simp [hfull, hf, hl]
      · simp [hfull, hf, hl]
    · by_cases hl : last_name = ""
      · simp [hfull, hf, hl]
      · simp [hfull, hf, hl]

/-- Witness for C5 amended: with first_name "Ada" present and last_name
missing, the split leaves first_name alone and fills last_name from the
remaining tokens of "Grace Hopper". -/
theorem fullname_split_fills_only_missing_witness :
    (applyFullName "Ada" "" "Grace Hopper").1 = "Ada" ∧
    (applyFullName "Ada" "" "Grace Hopper").2 =
      (if (pySplitWs "Grace Hopper").length > 1 then
        String.intercalate " " ((pySplitWs "Grace Hopper").drop 1) else "") :=
  ⟨(fullname_split_fills_only_missing "Ada" "" "Grace Hopper").1.1 (by decide),
   (fullname_split_fills_only_missing "Ada" "" "Grace Hopper").2.2.2 (by decide) (by decide)⟩

/-- C6.  Importing the single row `emails="a@x.com; b@x.com"` with no name
columns into an empty store creates two contacts, named from each email's
local part by `name_from_email`, with imported=2 and skipped=0. -/
theorem import_two_emails_row :
    (contacts_import emptyDB 0 ["emails"] [["a@x.com; b@x.com"]]).imported = 2 ∧
    (contacts_import emptyDB 0 ["emails"] [["a@x.com; b@x.com"]]).skipped = 0 ∧
    (contacts_import emptyDB 0 ["emails"] [["a@x.com; b@x.com"]]).db.contacts.map
      (fun c => (c.first_name, c.last_name, c.email)) =
      [("A", "", some "a@x.com"), ("B", "", some "b@x.com")] ∧
    name_from_email "a@x.com" = ("A", "") ∧
    name_from_email "b@x.com" = ("B", "") := by decide

/-- The blank-email placeholder iteration of the import email loop: with a
nonempty derived name it always inserts one contact with a null email — the
duplicate check is never consulted — and counts it as imported. -/
theorem importEmailStep_blank (now : Nat) (fn ln phone role notes : String)
    (coid : Option Nat) (st : ImpState) (hname : ¬(fn = "" ∧ ln = "")) :
    (importEmailStep now fn ln phone role notes coid st "").db.contacts =
      st.db.contacts ++
        [{ id := st.db.nextContactId, first_name := fn, last_name := ln, email := none,
           phone := blankToNone phone, role := blankToNone role, company_id := coid,
           notes := blankToNone notes, created_at := now, updated_at := now }] ∧
    (importEmailStep now fn ln phone role notes coid st "").db.nextContactId =
      st.db.nextContactId + 1 ∧
    (importEmailStep now fn ln phone role notes coid st "").imported = st.imported + 1 ∧
    (importEmailStep now fn ln phone role notes coid st "").skipped = st.skipped := by
  unfold importEmailStep
  dsimp only
  simp only [ne_eq, eq_self_iff_true, not_true, and_false, false_and, ite_false]
  rw [if_neg hname]
  exact ⟨rfl, rfl, rfl, rfl⟩

/-- Company resolution never touches the contacts table, the activity log or
their id counters. -/
theorem resolveCompany_frame (db : DB) (now : Nat) (name : String) :
    (resolveCompany db now name).1.contacts = db.contacts ∧
    (resolveCompany db now name).1.nextContactId = db.nextContactId ∧
    (resolveCompany db now name).1.activities = db.activities ∧
    (resolveCompany db now name).1.nextActivityId = db.nextActivityId := by
  unfold resolveCompany
  split
  · exact ⟨rfl, rfl, rfl, rfl⟩
  · split
    · exact ⟨rfl, rfl, rfl, rfl⟩
    · exact ⟨rfl, rfl, rfl, rfl⟩

/-- One import-row pass over a row whose derived email candidate set is
empty but whose derived name is nonempty: exactly one contact is inserted,
with a null email, counted imported, never as a duplicate skip. -/
theorem importRow_emailless_step
    (header : List String) (row : List String) (now : Nat) (st : ImpState)
    (hsing : get_value (mkFieldnames header) (rowDict header row)
      ["email", "email_address", "email address"] = "")
    (hplur : extract_emails (get_value (mkFieldnames header) (rowDict header row)
      ["emails", "email_list", "email list"]) = [])
    (hname : ¬((applyFullName
        (get_value (mkFieldnames header) (rowDict header row) ["first_name", "first name", "first"])
        (get_value (mkFieldnames header) (rowDict header row) ["last_name", "last name", "last"])
        (get_value (mkFieldnames header) (rowDict header row)
          ["full_name", "full name", "name", "magazine", "publication"])).1 = "" ∧
      (applyFullName
        (get_value (mkFieldnames header) (rowDict header row) ["first_name", "first name", "first"])
        (get_value (mkFieldnames header) (rowDict header row) ["last_name", "last name", "last"])
        (get_value (mkFieldnames header) (rowDict header row)
          ["full_name", "full name", "name", "magazine", "publication"])).2 = "")) :
    ∃ c : Contact,
      (importRow (mkFieldnames header) header now st row).db.contacts =
        st.db.contacts ++ [c] ∧
      c.email = none ∧ c.id = st.db.nextContactId ∧
      (importRow (mkFieldnames header) header now st row).db.nextContactId =
        st.db.nextContactId + 1 ∧
      (importRow (mkFieldnames header) header now st row).imported = st.imported + 1 ∧
      (importRow (mkFieldnames header) header now st row).skipped = st.skipped := by
  unfold importRow
  dsimp only
  rw [hsing]
  simp only [ne_eq, eq_self_iff_true, not_true, ite_false]
  rw [hplur]
  simp only [eq_self_iff_true, true_and, if_true]
  rw [if_neg hname]
  unfold importRowBody
  dsimp only
  simp only [eq_self_iff_true, if_true, List.foldl]
  obtain ⟨hfc, hfn, -, -⟩ := resolveCompany_frame st.db now
    (if (get_value (mkFieldnames header) (rowDict header row)
        ["company", "company_name", "company name"]) = "" ∧
      ¬(get_value (mkFieldnames header) (rowDict header row) ["site", "website", "url"]) = ""
     then get_value (mkFieldnames header) (rowDict header row) ["site", "website", "url"]
     else get_value (mkFieldnames header) (rowDict header row) ["company", "company_name", "company name"])
  obtain ⟨hc, hn, hi, hs⟩ := importEmailStep_blank now
    (applyFullName
      (get_value (mkFieldnames header) (rowDict header row) ["first_name", "first name", "first"])
      (get_value (mkFieldnames header) (rowDict header row) ["last_name", "last name", "last"])
      (get_value (mkFieldnames header) (rowDict header row)
        ["full_name", "full name", "name", "magazine", "publication"])).1
    (applyFullName
      (get_value (mkFieldnames header) (rowDict header row) ["first_name", "first name", "first"])
      (get_value (mkFieldnames header) (rowDict header row) ["last_name", "last name", "last"])
      (get_value (mkFieldnames header) (rowDict header row)
        ["full_name", "full name", "name", "magazine", "publication"])).2
    (get_value (mkFieldnames header) (rowDict header row) ["phone", "phone_number", "phone number"])
    (get_value (mkFieldnames header) (rowDict header row) ["role", "title"])
    (get_value (mkFieldnames header) (rowDict header row) ["notes", "note"])
    (resolveCompany st.db now
      (if (get_value (mkFieldnames header) (rowDict header row)
          ["company", "company_name", "company name"]) = "" ∧
        ¬(get_value (mkFieldnames header) (rowDict header row) ["site", "website", "url"]) = ""
       then get_value (mkFieldnames header) (rowDict header row) ["site", "website", "url"]
       else get_value (mkFieldnames header) (rowDict header row)
         ["company", "company_name", "company name"])).2
    ⟨(resolveCompany st.db now
      (if (get_value (mkFieldnames header) (rowDict header row)
          ["company", "company_name", "company name"]) = "" ∧
        ¬(get_value (mkFieldnames header) (rowDict header row) ["site", "website", "url"]) = ""
       then get_value (mkFieldnames header) (rowDict header row) ["site", "website", "url"]
       else get_value (mkFieldnames header) (rowDict header row)
         ["company", "company_name", "company name"])).1, st.imported, st.skipped⟩ hname
  exact ⟨_, hc.trans (by rw [hfc]), rfl, by dsimp only; rw [hfn],
    by rw [hn]; dsimp only; rw [hfn], hi, hs⟩

/-- C10.  The import duplicate check applies only to contacts with a
nonblank derived email: a row yielding no email candidates but a nonempty
name always creates a new Contact with a null email, counted imported;
importing the same row twice therefore creates two distinct contacts
(different ids), counted imported on both runs and never as a duplicate
skip. -/
theorem import_emailless_named_row_always_creates
    (header : List String) (row : List String) (now : Nat) (st : ImpState)
    (hsing : get_value (mkFieldnames header) (rowDict header row)
      ["email", "email_address", "email address"] = "")
    (hplur : extract_emails (get_value (mkFieldnames header) (rowDict header row)
      ["emails", "email_list", "email list"]) = [])
    (hname : ¬((applyFullName
        (get_value (mkFieldnames header) (rowDict header row) ["first_name", "first name", "first"])
        (get_value (mkFieldnames header) (rowDict header row) ["last_name", "last name", "last"])
        (get_value (mkFieldnames header) (rowDict header row)
          ["full_name", "full name", "name", "magazine", "publication"])).1 = "" ∧
      (applyFullName
        (get_value (mkFieldnames header) (rowDict header row) ["first_name", "first name", "first"])
        (get_value (mkFieldnames header) (rowDict header row) ["last_name", "last name", "last"])
        (get_value (mkFieldnames header) (rowDict header row)
          ["full_name", "full name", "name", "magazine", "publication"])).2 = "")) :
    ((importRow (mkFieldnames header) header now st row).imported = st.imported + 1 ∧
     (importRow (mkFieldnames header) header now st row).skipped = st.skipped ∧
     ∃ c : Contact, (importRow (mkFieldnames header) header now st row).db.contacts =
       st.db.contacts ++ [c] ∧ c.email = none) ∧
    ((importRow (mkFieldnames header) header now
        (importRow (mkFieldnames header) header now st row) row).imported = st.imported + 2 ∧
     (importRow (mkFieldnames header) header now
        (importRow (mkFieldnames header) header now st row) row).skipped = st.skipped ∧
     ∃ c1 c2 : Contact,
       (importRow (mkFieldnames header) header now
          (importRow (mkFieldnames header) header now st row) row).db.contacts =
         st.db.contacts ++ [c1, c2] ∧ c1.email = none ∧ c2.email = none ∧ c1.id ≠ c2.id) := by
  obtain ⟨c1, hc1, he1, hid1, hn1, hi1, hs1⟩ :=
    importRow_emailless_step header row now st hsing hplur hname
  obtain ⟨c2, hc2, he2, hid2, hn2, hi2, hs2⟩ :=
    importRow_emailless_step header row now
      (importRow (mkFieldnames header) header now st row) hsing hplur hname
  refine ⟨⟨hi1, hs1, c1, hc1, he1⟩, ?_, ?_, c1, c2, ?_, he1, he2, ?_⟩
  · rw [hi2, hi1]
  · rw [hs2, hs1]
  · rw [hc2, hc1]
    simp [List.append_assoc]
  · rw [hid1, hid2, hn1]
    omega

/-- Witness for C10: importing the row `full_name=Solo Person` (no email
columns) twice creates two distinct contacts, both counted imported. -/
theorem import_emailless_named_row_always_creates_witness :
    (importRow (mkFieldnames ["full_name"]) ["full_name"] 0
      { db := emptyDB, imported := 0, skipped := 0 } ["Solo Person"]).imported = 1 ∧
    ∃ c1 c2 : Contact,
      (importRow (mkFieldnames ["full_name"]) ["full_name"] 0
        (importRow (mkFieldnames ["full_name"]) ["full_name"] 0
          { db := emptyDB, imported := 0, skipped := 0 } ["Solo Person"])
        ["Solo Person"]).db.contacts = emptyDB.contacts ++ [c1, c2] ∧ c1.id ≠ c2.id := by
  obtain ⟨⟨hi1, -, -⟩, -, -, c1, c2, hc, -, -, hne⟩ :=
    import_emailless_named_row_always_creates ["full_name"] ["Solo Person"] 0
      { db := emptyDB, imported := 0, skipped := 0 } (by decide) (by decide) (by decide)
  exact ⟨hi1, c1, c2, hc, hne⟩

/-- One email-loop iteration changes the activity count by exactly its
change to the imported count (one per contact inserted, none on a skip). -/
theorem importEmailStep_activity_delta (now : Nat) (fn ln ph rl nt : String)
    (coid : Option Nat) (st : ImpState) (e : String) :
    (importEmailStep now fn ln ph rl nt coid st e).db.activities.length + st.imported =
      st.db.activities.length + (importEmailStep now fn ln ph rl nt coid st e).imported := by
  unfold importEmailStep
  dsimp only
  split
  all_goals
    split
    · rfl
    · split
      · rfl
      · simp only [add_activity, List.length_append, List.length_cons, List.length_nil]
        omega

/-- The email loop preserves the activities-minus-imported balance. -/
theorem importEmailLoop_activity_delta (now : Nat) (fn ln ph rl nt : String)
    (coid : Option Nat) (emails : List String) :
    ∀ st : ImpState,
      ((emails.foldl (importEmailStep now fn ln ph rl nt coid) st).db.activities.length
          + st.imported =
        st.db.activities.length
          + (emails.foldl (importEmailStep now fn ln ph rl nt coid) st).imported) := by
  induction emails with
  | nil => intro st; rfl
  | cons e es ih =>
    intro st
    have h1 := importEmailStep_activity_delta now fn ln ph rl nt coid st e
    have h2 := ih (importEmailStep now fn ln ph rl nt coid st e)
    simp only [List.foldl]
    omega

/-- The non-skipped row tail (company resolution included) appends exactly
one Activity per contact it imports — in particular the company
auto-creation inside it appends none. -/
theorem importRowBody_activity_delta (now : Nat) (fn ln ph rl nt cn : String)
    (st : ImpState) (emails : List String) :
    (importRowBody now fn ln ph rl nt cn st emails).db.activities.length + st.imported =
      st.db.activities.length + (importRowBody now fn ln ph rl nt cn st emails).imported := by
  unfold importRowBody
  dsimp only
  have hfr := (resolveCompany_frame st.db now cn).2.2.1
  have h := importEmailLoop_activity_delta now fn ln ph rl nt
    (resolveCompany st.db now cn).2 (if emails = [] then [""] else emails)
    ⟨(resolveCompany st.db now cn).1, st.imported, st.skipped⟩
  dsimp only at h
  rw [hfr] at h
  exact h

/-- A whole row iteration preserves the activities-minus-imported balance. -/
theorem importRow_activity_delta (fns : List (String × String)) (header : List String)
    (now : Nat) (st : ImpState) (row : List String) :
    (importRow fns header now st row).db.activities.length + st.imported =
      st.db.activities.length + (importRow fns header now st row).imported := by
  unfold importRow
  dsimp only
  split
  all_goals
    split
    · rfl
    · exact importRowBody_activity_delta now _ _ _ _ _ _ st _

/-- The import run appends exactly one Activity per imported contact:
skipped rows and auto-created companies append none. -/
theorem contacts_import_activity_delta (db : DB) (now : Nat) (header : List String)
    (rows : List (List String)) :
    (contacts_import db now header rows).db.activities.length =
      db.activities.length + (contacts_import db now header rows).imported := by
  unfold contacts_import
  dsimp only
  have key : ∀ (rs : List (List String)) (st : ImpState),
      (rs.foldl (importRow (mkFieldnames header) header now) st).db.activities.length
          + st.imported =
        st.db.activities.length
          + (rs.foldl (importRow (mkFieldnames header) header now) st).imported := by
    intro rs
    induction rs with
    | nil => intro st; rfl
    | cons r rest ih =>
      intro st
      have h1 := importRow_activity_delta (mkFieldnames header) header now st r
      have h2 := ih (importRow (mkFieldnames header) header now st r)
      simp only [List.foldl]
      omega
  have h := key rows { db := db, imported := 0, skipped := 0 }
  dsimp only at h
  omega

/-- Counterexample to C1 as stated: importing one row with a new company
name inserts two entity rows — the Contact and the auto-created Company —
yet appends exactly one Activity, and that Activity describes the Contact;
no Activity describes the Company insertion. -/
theorem import_company_unlogged_counterexample :
    (contacts_import emptyDB 0 ["name", "company"] [["Ada Lovelace", "Acme"]]).db.companies.length
      = 1 ∧
    (contacts_import emptyDB 0 ["name", "company"] [["Ada Lovelace", "Acme"]]).db.contacts.length
      = 1 ∧
    (contacts_import emptyDB 0 ["name", "company"] [["Ada Lovelace", "Acme"]]).db.activities.length
      = 1 ∧
    (contacts_import emptyDB 0 ["name", "company"] [["Ada Lovelace", "Acme"]]).db.activities.map
      (fun a => a.entity_type) = ["Contact"] := by decide

/-- C1 amended.  Every mutating operation appends exactly one Activity
describing it, with these exceptions observed in the code: (a) a
status-change request with no actual value change appends nothing and
changes nothing; (b) a no-op contact update appends nothing while still
committing a refreshed `updated_at`; (c) a contact delete appends a single
DELETE Activity that also covers its cascade reference-nullifications;
(d) the contact import appends exactly one Activity per contact created —
companies auto-created during import and skipped rows append none; (e) a
duplicate-skipped asset upload changes nothing and appends nothing. -/
theorem mutations_log_exactly_one_activity (now : Nat) :
    (∀ db fn ln em ph rl coid nts,
      (contacts_create db now fn ln em ph rl coid nts).activities.length =
        db.activities.length + 1) ∧
    (∀ db name web nts,
      (companies_create db now name web nts).activities.length = db.activities.length + 1) ∧
    (∀ db t s src ve coid ctid ns dd nts,
      (leads_create db now t s src ve coid ctid ns dd nts).activities.length =
        db.activities.length + 1) ∧
    (∀ db t s tg nts,
      (ideas_create db now t s tg nts).activities.length = db.activities.length + 1) ∧
    (∀ db n s coid ctid sd ed b nts,
      (projects_create db now n s coid ctid sd ed b nts).activities.length =
        db.activities.length + 1) ∧
    (∀ db pid t dd s nts,
      (tasks_create db now pid t dd s nts).activities.length = db.activities.length + 1) ∧
    (∀ db t st_ en ad pid cid loc nts db',
      events_create db now t st_ en ad pid cid loc nts = .ok db' →
      db'.activities.length = db.activities.length + 1) ∧
    (∀ db lid s lead db', db.leads.find? (fun l => l.id == lid) = some lead →
      leads_set_status db now lid s = .ok db' →
      (lead.status ≠ s ∧ db'.activities.length = db.activities.length + 1) ∨
      (lead.status = s ∧ db' = db)) ∧
    (∀ db pid s p db', db.projects.find? (fun q => q.id == pid) = some p →
      projects_set_status db now pid s = .ok db' →
      (p.status ≠ s ∧ db'.activities.length = db.activities.length + 1) ∨
      (p.status = s ∧ db' = db)) ∧
    (∀ db tid s t db', db.tasks.find? (fun u => u.id == tid) = some t →
      tasks_set_status db now tid s = .ok db' →
      (t.status ≠ s ∧ db'.activities.length = db.activities.length + 1) ∨
      (t.status = s ∧ db' = db)) ∧
    (∀ db cid fn ln em ph rl coid nts c db',
      db.contacts.find? (fun x => x.id == cid) = some c →
      contacts_update db now cid fn ln em ph rl coid nts = .ok db' →
      (snapshotDiff c (contactWithForm c now fn ln em ph rl coid nts) ≠ [] ∧
        db'.activities.length = db.activities.length + 1) ∨
      (snapshotDiff c (contactWithForm c now fn ln em ph rl coid nts) = [] ∧
        db'.activities = db.activities)) ∧
    (∀ db cid db', contacts_delete db now cid = .ok db' →
      db'.activities.length = db.activities.length + 1) ∧
    (∀ db file guessed token tags pid cid nts db' r,
      save_asset_upload db now file guessed token tags pid cid nts = .ok (db', r) →
      ((∃ a, r = some a) ∧ db'.activities.length = db.activities.length + 1) ∨
      (r = none ∧ db' = db)) ∧
    (∀ db aid db', assets_delete db now aid = .ok db' →
      db'.activities.length = db.activities.length + 1) ∧
    (∀ db header rows,
      (contacts_import db now header rows).db.activities.length =
        db.activities.length + (contacts_import db now header rows).imported) := by
  refine ⟨?_, ?_, ?_, ?_, ?_, ?_, ?_, ?_, ?_, ?_, ?_, ?_, ?_, ?_, ?_⟩
  · intro db fn ln em ph rl coid nts
    simp [contacts_create, add_activity]
  · intro db name web nts
    simp [companies_create, add_activity]
  · intro db t s src ve coid ctid ns dd nts
    simp [leads_create, add_activity]
  · intro db t s tg nts
    simp [ideas_create, add_activity]
  · intro db n s coid ctid sd ed b nts
    simp [projects_create, add_activity]
  · intro db pid t dd s nts
    simp [tasks_create, add_activity]
  · intro db t st_ en ad pid cid loc nts db' h
    unfold events_create at h
    rcases st_ with _ | sdt
    · exact absurd h (by simp)
    · dsimp only at h
      simp only [Except.ok.injEq] at h
      subst h
      simp [add_activity]
  · intro db lid s lead db' hfind hok
    unfold leads_set_status at hok
    rw [hfind] at hok
    dsimp only at hok
    split at hok
    · exact absurd hok (by simp)
    · split at hok
      · rename_i hne
        simp only [Except.ok.injEq] at hok
        subst hok
        exact Or.inl ⟨hne, by simp [add_activity]⟩
      · rename_i heq
        simp only [Except.ok.injEq] at hok
        exact Or.inr ⟨not_not.mp heq, hok.symm⟩
  · intro db pid s p db' hfind hok
    unfold projects_set_status at hok
    rw [hfind] at hok
    dsimp only at hok
    split at hok
    · exact absurd hok (by simp)
    · split at hok
      · rename_i hne
        simp only [Except.ok.injEq] at hok
        subst hok
        exact Or.inl ⟨hne, by simp [add_activity]⟩
      · rename_i heq
        simp only [Except.ok.injEq] at hok
        exact Or.inr ⟨not_not.mp heq, hok.symm⟩
  · intro db tid s t db' hfind hok
    unfold tasks_set_status at hok
    rw [hfind] at hok
    dsimp only at hok
    split at hok
    · exact absurd hok (by simp)
    · split at hok
      · rename_i hne
        simp only [Except.ok.injEq] at hok
        subst hok
        exact Or.inl ⟨hne, by simp [add_activity]⟩
      · rename_i heq
        simp only [Except.ok.injEq] at hok
        exact Or.inr ⟨not_not.mp heq, hok.symm⟩
  · intro db cid fn ln em ph rl coid nts c db' hfind hok
    unfold contacts_update at hok
    rw [hfind] at hok
    dsimp only at hok
    split at hok
    · rename_i heq
      simp only [Except.ok.injEq] at hok
      subst hok
      exact Or.inr ⟨heq, rfl⟩
    · rename_i hne
      simp only [Except.ok.injEq] at hok
      subst hok
      exact Or.inl ⟨hne, by simp [add_activity]⟩
  · intro db cid db' h
    unfold contacts_delete at h
    rcases hf : db.contacts.find? (fun c => c.id == cid) with _ | contact
    · rw [hf] at h
      exact absurd h (by simp)
    · rw [hf] at h
      dsimp only at h
      simp only [Except.ok.injEq] at h
      subst h
      simp [add_activity]
  · intro db file guessed token tags pid cid nts db' r h
    unfold save_asset_upload at h
    split at h
    · simp only [Except.ok.injEq, Prod.mk.injEq] at h
      exact Or.inr ⟨h.2.symm, h.1.symm⟩
    · dsimp only at h
      split at h
      · exact absurd h (by simp)
      · split at h
        · exact absurd h (by simp)
        · split at h
          · simp only [Except.ok.injEq, Prod.mk.injEq] at h
            exact Or.inr ⟨h.2.symm, h.1.symm⟩
          · simp only [Except.ok.injEq, Prod.mk.injEq] at h
            obtain ⟨hdb, hr⟩ := h
            subst hdb
            exact Or.inl ⟨⟨_, hr.symm⟩, by simp [add_activity]⟩
  · intro db aid db' h
    unfold assets_delete at h
    rcases hf : db.assets.find? (fun a => a.id == aid) with _ | asset
    · rw [hf] at h
      exact absurd h (by simp)
    · rw [hf] at h
      dsimp only at h
      simp only [Except.ok.injEq] at h
      subst h
      simp [add_activity]
  · intro db header rows
    exact contacts_import_activity_delta db now header rows

/-- Witness for C1 amended: a direct create appends one Activity; an import
that auto-creates a company appends exactly one Activity per imported
contact; a no-op contact update appends nothing. -/
theorem mutations_log_exactly_one_activity_witness :
    (contacts_create emptyDB 0 "A" "B" "" "" "" none "").activities.length =
      emptyDB.activities.length + 1 ∧
    (contacts_import emptyDB 0 ["name", "company"] [["Ada Lovelace", "Acme"]]).db.activities.length =
      emptyDB.activities.length +
        (contacts_import emptyDB 0 ["name", "company"] [["Ada Lovelace", "Acme"]]).imported ∧
    ((snapshotDiff cAda (contactWithForm cAda 9 "Ada" "Lovelace" "ada@x.com" "" "" none "") ≠ [] ∧
        ({ dbAda with contacts := dbAda.contacts.map (fun x =>
          if x.id == 1 then { cAda with updated_at := 9 } else x) } : DB).activities.length =
          dbAda.activities.length + 1) ∨
      (snapshotDiff cAda (contactWithForm cAda 9 "Ada" "Lovelace" "ada@x.com" "" "" none "") = [] ∧
        ({ dbAda with contacts := dbAda.contacts.map (fun x =>
          if x.id == 1 then { cAda with updated_at := 9 } else x) } : DB).activities =
          dbAda.activities)) := by
  have h := mutations_log_exactly_one_activity 0
  have h9 := mutations_log_exactly_one_activity 9
  refine ⟨h.1 emptyDB "A" "B" "" "" "" none "",
    h.2.2.2.2.2.2.2.2.2.2.2.2.2.2 emptyDB ["name", "company"] [["Ada Lovelace", "Acme"]], ?_⟩
  exact h9.2.2.2.2.2.2.2.2.2.2.1 dbAda 1 "Ada" "Lovelace" "ada@x.com" "" "" none "" cAda
    { dbAda with contacts := dbAda.contacts.map (fun x =>
        if x.id == 1 then { cAda with updated_at := 9 } else x) }
    (by decide) (by decide)

end CRM
